import Mathlib

/-
Verification development for the MEV Bot Detector dashboard (src/app.py).

The detection pipeline of src/app.py is embedded shallowly:
a pandas DataFrame row becomes a `Transaction` record, a Batch becomes a
`List Transaction`, and the float64 columns gasPrice / value are idealised
as rationals.  `detect_sandwich` (lines 95-112), the high-gas computation
(lines 151-153), the DBSCAN clustering step `dbscan_cluster` (lines
121-127) and the pipeline driver `run_dashboard` (lines 129-155) are
translated below; `detect_anomalies` (lines 114-119) delegates wholesale
to a seeded random-forest library and is not translatable, which is
recorded per claim.  Stateful DataFrame mutation is made explicit by
state passing on a `Frame` value (the DataFrame together with its
optional `cluster` column).
-/

/-- Transaction record exactly as assembled by fetch_recent_txs
(src/app.py lines 69-76): tx_hash, from_address, to_address (None for a
contract-creation transaction), gasPrice in Gwei, value in ETH, and
blockNumber.  The two float columns are idealised as rationals. -/
structure Transaction where
  tx_hash : String
  from_address : String
  to_address : Option String
  gasPrice : ℚ
  value : ℚ
  blockNumber : Int
deriving DecidableEq, Repr

/-- Record appended by detect_sandwich for a flagged window
(src/app.py lines 102-111). -/
structure SandwichFinding where
  block : Int
  victim_hash : String
  front_hash : String
  back_hash : String
  to_address : Option String
  front_gas : ℚ
  victim_gas : ℚ
  back_gas : ℚ
deriving DecidableEq, Repr

/-- The three-part condition of detect_sandwich (src/app.py lines
99-101): same destination for prev and next, prev.gasPrice >
curr.gasPrice < next.gasPrice, and all three transactions in one block.
Python compares the to columns with ==, so two None values compare
equal, which the `Option String` equality reproduces. -/
def sandwichCond (prev curr nxt : Transaction) : Prop :=
  prev.to_address = nxt.to_address ∧
  prev.gasPrice > curr.gasPrice ∧ curr.gasPrice < nxt.gasPrice ∧
  prev.blockNumber = curr.blockNumber ∧ curr.blockNumber = nxt.blockNumber

instance instDecSandwichCond (p c n : Transaction) :
    Decidable (sandwichCond p c n) := by
  unfold sandwichCond; infer_instance

/-- The record literal appended at src/app.py lines 102-111. -/
def mkFinding (prev curr nxt : Transaction) : SandwichFinding :=
  { block := prev.blockNumber
    victim_hash := curr.tx_hash
    front_hash := prev.tx_hash
    back_hash := nxt.tx_hash
    to_address := prev.to_address
    front_gas := prev.gasPrice
    victim_gas := curr.gasPrice
    back_gas := nxt.gasPrice }

/-- One iteration of the loop body of detect_sandwich at index i:
the lookups txs.iloc of i-1, i, i+1 and the conditional append. -/
def sandwichAt (txs : List Transaction) (i : Nat) : Option SandwichFinding :=
  txs[i-1]?.bind fun p =>
    txs[i]?.bind fun c =>
      txs[i+1]?.bind fun n =>
        if sandwichCond p c n then some (mkFinding p c n) else none

/-- detect_sandwich (src/app.py lines 95-112): the loop
for i in range(1, len(txs)-1) appending a finding whenever the window
condition holds, in ascending order of i. -/
def detect_sandwich (txs : List Transaction) : List SandwichFinding :=
  (List.range' 1 (txs.length - 2)).filterMap (sandwichAt txs)

/-- Sliding-window restatement of the sandwich scan, following the
wording of the specification (a fixed window of three consecutive
positions, every interior index evaluated exactly once, findings in
scan order).  Proved equal to `detect_sandwich` below. -/
def sandwichScan : List Transaction → List SandwichFinding
  | p :: c :: n :: rest =>
      (if sandwichCond p c n then [mkFinding p c n] else []) ++
        sandwichScan (c :: n :: rest)
  | _ => []

/-- Median of a column as pandas Series.median computes it for a
column without NaN: sort ascending, take the middle element for odd
length and the mean of the two middle elements for even length.
The value on the empty list is irrelevant: run_dashboard returns
before computing any median when the batch is empty. -/
def median (xs : List ℚ) : ℚ :=
  let s := List.insertionSort (fun a b : ℚ => a ≤ b) xs
  if s.length % 2 = 1 then s.getD (s.length / 2) 0
  else (s.getD (s.length / 2 - 1) 0 + s.getD (s.length / 2) 0) / 2

/-- HIGH_GAS_MULTIPLIER = 3 (src/app.py line 17). -/
def HIGH_GAS_MULTIPLIER : ℚ := 3

/-- The sort_values call of src/app.py line 153, by gasPrice with
ascending=False.  pandas nargsort reverses the column, argsorts it
ascending and reverses the resulting permutation; the underlying numpy
argsort is modelled as a stable sort, which is exact whenever the sorted
segment stays below numpy's 16-element insertion-sort cutoff (beyond
that numpy's default quicksort gives no documented tie order, and no
theorem below depends on the tie order of this function). -/
def sort_values_gas_desc (rows : List Transaction) : List Transaction :=
  (List.insertionSort (fun a b : Transaction => a.gasPrice ≤ b.gasPrice)
    rows.reverse).reverse

/-- The high-gas computation of src/app.py line 153:
txs[txs.gasPrice >= threshold] sorted by gasPrice descending. -/
def high_gas_txs (txs : List Transaction) (threshold : ℚ) : List Transaction :=
  sort_values_gas_desc (txs.filter (fun t => threshold ≤ t.gasPrice))

/-- eps = 0.5 (src/app.py line 123). -/
def EPS : ℚ := 1 / 2

/-- min_samples = 3 (src/app.py line 123). -/
def MIN_SAMPLES : Nat := 3

/-- gasPrice feature column of the clusterer (src/app.py line 122). -/
def gasCol (txs : List Transaction) : List ℚ :=
  txs.map (fun t => t.gasPrice)

/-- blockNumber feature column of the clusterer (src/app.py line 122). -/
def blockCol (txs : List Transaction) : List ℚ :=
  txs.map (fun t => (t.blockNumber : ℚ))

/-- Modelled from the spec: mean of one feature column, for the
batch-relative normalisation of section 4.4 (the StandardScaler call of
src/app.py line 124, whose library source is not part of src/). -/
def colMean (xs : List ℚ) : ℚ := xs.sum / (xs.length : ℚ)

/-- Modelled from the spec: population variance of one feature column,
the square of the unit-variance scale of the batch-relative
normalisation of section 4.4. -/
def colVar (xs : List ℚ) : ℚ :=
  ((xs.map (fun x => (x - colMean xs) * (x - colMean xs))).sum) /
    (xs.length : ℚ)

/-- Modelled from the spec: squared scaling divisor of one column; a
zero-variance column is scaled by 1 instead of 0 so that the degenerate
input of section 4.3 / 7(d) divides by 1 rather than by zero, matching
the scaler's documented zero-variance handling. -/
def colScale2 (xs : List ℚ) : ℚ := if colVar xs = 0 then 1 else colVar xs

/-- Modelled from the spec: squared euclidean distance between rows i
and j of the batch in normalised (gasPrice, blockNumber) feature space
(section 4.4).  Working with the squared distance keeps the arithmetic
rational. -/
def sqDistance (txs : List Transaction) (i j : Nat) : ℚ :=
  let g := gasCol txs
  let b := blockCol txs
  (g.getD i 0 - g.getD j 0) * (g.getD i 0 - g.getD j 0) / colScale2 g +
    (b.getD i 0 - b.getD j 0) * (b.getD i 0 - b.getD j 0) / colScale2 b

/-- Modelled from the spec: row j lies within the eps-neighbourhood of
row i (distance at most eps in normalised feature space). -/
def withinEps (txs : List Transaction) (i j : Nat) : Bool :=
  sqDistance txs i j ≤ EPS * EPS

/-- Modelled from the spec: the eps-neighbourhood of row i, the row
itself included (its distance to itself is zero). -/
def neighborsOf (txs : List Transaction) (i : Nat) : List Nat :=
  (List.range txs.length).filter (fun j => withinEps txs i j)

/-- Modelled from the spec: row i is a core point when its
eps-neighbourhood holds at least min_samples rows (section 4.4). -/
def isCorePt (txs : List Transaction) (i : Nat) : Bool :=
  MIN_SAMPLES ≤ (neighborsOf txs i).length

/-- Modelled from the spec: the core points whose eps-neighbourhood
covers row i.  A row covered by no core point is noise (section 4.4:
not belonging to a dense region of at least minSamples mutually
eps-reachable points). -/
def coveringCores (txs : List Transaction) (i : Nat) : List Nat :=
  (List.range txs.length).filter
    (fun j => isCorePt txs j && withinEps txs j i)

/-- Modelled from the spec: one expansion step of a set of core points
by eps-reachability among core points. -/
def expandCores (txs : List Transaction) (s : List Nat) : List Nat :=
  (List.range txs.length).filter
    (fun v => isCorePt txs v &&
      (s.contains v || s.any (fun u => withinEps txs u v)))

/-- Modelled from the spec: the dense component of core point j,
obtained by iterating the expansion until it is stable (batch-length
iterations always suffice). -/
def coreComponent (txs : List Transaction) (j : Nat) : List Nat :=
  (expandCores txs)^[txs.length] [j]

/-- Modelled from the spec: canonical representative (smallest index)
of the dense component of core point j. -/
def componentRep (txs : List Transaction) (j : Nat) : Nat :=
  (coreComponent txs j).foldr min j

/-- Modelled from the spec: the component representatives in first-seen
order; cluster ids are run-local positions in this list (section 3:
ids carry no cross-run meaning). -/
def clusterReps (txs : List Transaction) : List Nat :=
  (((List.range txs.length).filter (fun j => isCorePt txs j)).map
    (componentRep txs)).dedup

/-- Modelled from the spec: the label column produced by the
density-based clusterer of section 4.4 for the fit_predict call of
src/app.py lines 123-125 (library source not part of src/): -1 for a
row covered by no core point (noise), otherwise the run-local id of the
dense component covering the row. -/
def dbscanLabels (txs : List Transaction) : List Int :=
  (List.range txs.length).map (fun i =>
    match coveringCores txs i with
    | [] => -1
    | j :: _ => ((clusterReps txs).indexOf (componentRep txs j) : Int))

/-- A DataFrame of transactions together with its optional cluster
column: none models the absent column, some models an assigned cell.
DataFrame mutation is made explicit by state passing on this type. -/
abbrev Frame := List (Transaction × Option Int)

/-- The DataFrame as delivered by ingestion: no cluster column. -/
def toFrame (txs : List Transaction) : Frame :=
  txs.map (fun t => (t, (none : Option Int)))

/-- dbscan_cluster (src/app.py lines 121-127) in state-passing form:
the assignment txs[cluster] = lbls writes the label column into the
input DataFrame (first component: the mutated input), and the function
returns the rows whose label is not -1 (second component). -/
def dbscan_cluster (f : Frame) : Frame × Frame :=
  let txs := f.map Prod.fst
  let written := List.zipWith (fun r l => (Prod.fst r, some l)) f (dbscanLabels txs)
  (written, written.filter (fun r => r.2 ≠ some (-1)))

/-- detect_sandwich in state-passing form: the source (src/app.py
lines 95-112) only reads txs, so the state component is returned
untouched. -/
def detect_sandwich_frame (f : Frame) : Frame × List SandwichFinding :=
  (f, detect_sandwich (f.map Prod.fst))

/-- The high-gas computation in state-passing form: line 153 of
src/app.py builds a new sorted DataFrame and does not write into txs,
so the state component is returned untouched. -/
def high_gas_frame (f : Frame) (threshold : ℚ) :
    Frame × List Transaction :=
  (f, high_gas_txs (f.map Prod.fst) threshold)

/-- detect_anomalies (src/app.py lines 114-119) in state-passing form:
line 115 reads the gasPrice and value columns into a fresh feature
array, the fit_predict call of lines 116-118 is the untranslatable
seeded library step whose label vector is taken here as a parameter,
and line 119 selects the rows whose label is -1 into a new DataFrame
(the boolean mask txs[labels == -1], positional).  Nothing is written
into txs, so the state component is returned untouched. -/
def detect_anomalies_frame (f : Frame) (labels : List Int) :
    Frame × Frame :=
  (f, ((f.zip labels).filter (fun q => q.2 = -1)).map Prod.fst)

/-- The data assembled by run_dashboard for rendering (src/app.py
lines 151-155 and 191): median gas, threshold, the high-gas table, the
sandwich findings and the cluster rows.  The anomaly output of
detect_anomalies is a seeded random-forest library call with no
translatable semantics and is not a field of this model. -/
structure Report where
  median_gas : ℚ
  threshold : ℚ
  high_gas : List Transaction
  sandwiches : List SandwichFinding
  clusters : Frame
deriving DecidableEq, Repr

/-- run_dashboard (src/app.py lines 129-155, 191), detection part: on
an empty batch the function returns at line 149 before any median or
detector call (modelled as none); otherwise the median, the threshold,
and the detector outputs are computed from the one batch. -/
def run_dashboard (txs : List Transaction) : Option Report :=
  if txs.isEmpty then none
  else
    let m := median (txs.map (fun t => t.gasPrice))
    let th := m * HIGH_GAS_MULTIPLIER
    some
      { median_gas := m
        threshold := th
        high_gas := high_gas_txs txs th
        sandwiches := detect_sandwich txs
        clusters := (dbscan_cluster (toFrame txs)).2 }

/-- Transaction A of the determinism example of the specification,
section 8: block 1, gas 5, to X. -/
def exA : Transaction :=
  { tx_hash := "0xa", from_address := "0xfa", to_address := some "0xX"
    gasPrice := 5, value := 0, blockNumber := 1 }

/-- Transaction B of the determinism example: block 1, gas 2, to Y. -/
def exB : Transaction :=
  { tx_hash := "0xb", from_address := "0xfb", to_address := some "0xY"
    gasPrice := 2, value := 0, blockNumber := 1 }

/-- Transaction C of the determinism example: block 1, gas 6, to X. -/
def exC : Transaction :=
  { tx_hash := "0xc", from_address := "0xfc", to_address := some "0xX"
    gasPrice := 6, value := 0, blockNumber := 1 }

/-- Transaction C with its to-address changed to Z. -/
def exCtoZ : Transaction := { exC with to_address := some "0xZ" }

/-- Transaction C with its block number changed to 2. -/
def exCblk2 : Transaction := { exC with blockNumber := 2 }

/-- Front leg of the contract-creation window of claim C10: a
contract-creation transaction (to_address none) with the higher gas
bid. -/
def exP : Transaction :=
  { tx_hash := "0xp1", from_address := "0xfp", to_address := none
    gasPrice := 9, value := 0, blockNumber := 7 }

/-- Victim of the contract-creation window: ordinary transaction with
the strictly lowest gas bid of the triplet. -/
def exQ : Transaction :=
  { tx_hash := "0xq", from_address := "0xfq", to_address := some "0xT"
    gasPrice := 4, value := 0, blockNumber := 7 }

/-- Back leg of the contract-creation window: a second
contract-creation transaction (to_address none). -/
def exR : Transaction :=
  { tx_hash := "0xp2", from_address := "0xfr", to_address := none
    gasPrice := 8, value := 0, blockNumber := 7 }

/-- Filler transaction for the report-completeness batch: gas 1,
block 1. -/
def exFiller (h : String) : Transaction :=
  { tx_hash := h, from_address := "0xs", to_address := some "0xf"
    gasPrice := 1, value := 0, blockNumber := 1 }

/-- Front leg of the report-completeness batch: gas 100 to the pool
contract. -/
def exT8 : Transaction :=
  { tx_hash := "0x08", from_address := "0xs", to_address := some "0xp"
    gasPrice := 100, value := 0, blockNumber := 1 }

/-- Victim of the report-completeness batch: gas 50, above the
high-gas threshold of the batch and a strict local gas minimum. -/
def exT9 : Transaction :=
  { tx_hash := "0x09", from_address := "0xs", to_address := some "0xq"
    gasPrice := 50, value := 0, blockNumber := 1 }

/-- Back leg of the report-completeness batch: gas 100 to the pool
contract. -/
def exT10 : Transaction :=
  { tx_hash := "0x10", from_address := "0xs", to_address := some "0xp"
    gasPrice := 100, value := 0, blockNumber := 1 }

/-- Batch in which exT9 satisfies the high-gas criterion (median gas 1,
threshold 3, its gas 50) and the sandwich-victim criterion at position
8 between exT8 and exT10. -/
def exBatch9 : List Transaction :=
  [exFiller "0x01", exFiller "0x02", exFiller "0x03", exFiller "0x04",
   exFiller "0x05", exFiller "0x06", exFiller "0x07", exT8, exT9, exT10]

/-- The report run_dashboard assembles for exBatch9: median 1,
threshold 3, the three high-gas rows sorted by gas descending, the one
sandwich finding, and the seven filler rows as the one cluster (the
three high-gas rows are noise to the clusterer). -/
def exReport9 : Report :=
  { median_gas := 1
    threshold := 3
    high_gas := [exT8, exT10, exT9]
    sandwiches := [mkFinding exT8 exT9 exT10]
    clusters :=
      [(exFiller "0x01", some 0), (exFiller "0x02", some 0),
       (exFiller "0x03", some 0), (exFiller "0x04", some 0),
       (exFiller "0x05", some 0), (exFiller "0x06", some 0),
       (exFiller "0x07", some 0)] }

/-- First of three transactions with identical clustering features
(gas 7, block 5). -/
def exU1 : Transaction :=
  { tx_hash := "0xu1", from_address := "0xs", to_address := some "0xc"
    gasPrice := 7, value := 0, blockNumber := 5 }

/-- Second of the three identical-feature transactions. -/
def exU2 : Transaction := { exU1 with tx_hash := "0xu2" }

/-- Third of the three identical-feature transactions. -/
def exU3 : Transaction := { exU1 with tx_hash := "0xu3" }

/-- Three transactions with identical features (gas 7, block 5): all
three are core points of one dense component, so none is noise. -/
def exTrip : List Transaction := [exU1, exU2, exU3]

/-- Two-row batch: with min_samples = 3 no point is core, so the
clusterer labels both rows -1. -/
def exPair : List Transaction :=
  [{ tx_hash := "0xv1", from_address := "0xs", to_address := some "0xd"
     gasPrice := 3, value := 1, blockNumber := 9 },
   { tx_hash := "0xv2", from_address := "0xs", to_address := some "0xd"
     gasPrice := 4, value := 2, blockNumber := 9 }]

/-- The two-row batch as the DataFrame delivered to the detectors:
no cluster column. -/
def exPairFrame : Frame := toFrame exPair

/-- Unfolding of one sandwich-loop iteration: the iteration emits f
exactly when the three lookups succeed, the window condition holds,
and f is the corresponding finding record. -/
theorem sandwichAt_eq_some {txs : List Transaction} {i : Nat}
    {f : SandwichFinding} :
    sandwichAt txs i = some f ↔
      ∃ p c n, txs[i-1]? = some p ∧ txs[i]? = some c ∧
        txs[i+1]? = some n ∧ sandwichCond p c n ∧ f = mkFinding p c n := by
  simp only [sandwichAt, Option.bind_eq_some]
  constructor
  · rintro ⟨p, hp, c, hc, n, hn, h⟩
    split_ifs at h with hcond
    exact ⟨p, c, n, hp, hc, hn, hcond, (Option.some.inj h).symm⟩
  · rintro ⟨p, c, n, hp, hc, hn, hcond, rfl⟩
    exact ⟨p, hp, c, hc, n, hn, by simp [hcond]⟩

/-- Membership in the sandwich output comes exactly from a loop
iteration at some index at least 1. -/
theorem mem_detect_sandwich {txs : List Transaction} {f : SandwichFinding} :
    f ∈ detect_sandwich txs ↔ ∃ i, 1 ≤ i ∧ sandwichAt txs i = some f := by
  unfold detect_sandwich
  rw [List.mem_filterMap]
  constructor
  · rintro ⟨i, hi, hf⟩
    rw [List.mem_range'] at hi
    obtain ⟨k, _, rfl⟩ := hi
    exact ⟨1 + 1 * k, by omega, hf⟩
  · rintro ⟨i, h1, hf⟩
    refine ⟨i, ?_, hf⟩
    rw [List.mem_range']
    obtain ⟨p, c, n, _, _, hn, _, rfl⟩ := sandwichAt_eq_some.mp hf
    have hlen : i + 1 < txs.length := (List.getElem?_eq_some.mp hn).1
    exact ⟨i - 1, by omega, by omega⟩

/-- Shifting the loop index by one strips the head of the batch. -/
theorem sandwichAt_cons (p : Transaction) (l : List Transaction) (k : Nat) :
    sandwichAt (p :: l) (k + 2) = sandwichAt l (k + 1) := by
  unfold sandwichAt
  have h1 : k + 2 - 1 = k + 1 := by omega
  have h2 : k + 1 - 1 = k := by omega
  rw [h1, h2]
  rw [List.getElem?_cons_succ, List.getElem?_cons_succ, List.getElem?_cons_succ]

/-- The index-based loop of detect_sandwich computes the same list of
findings as the sliding-window scan, preserving scan order. -/
theorem detect_sandwich_eq_scan :
    ∀ txs : List Transaction, detect_sandwich txs = sandwichScan txs
  | [] => by simp [detect_sandwich, sandwichScan]
  | [_] => by simp [detect_sandwich, sandwichScan]
  | [_, _] => by simp [detect_sandwich, sandwichScan]
  | p :: c :: n :: rest => by
    have ih := detect_sandwich_eq_scan (c :: n :: rest)
    rw [sandwichScan, ← ih]
    unfold detect_sandwich
    have hlen1 : (p :: c :: n :: rest).length - 2 = rest.length + 1 := by
      simp
    have hlen2 : (c :: n :: rest).length - 2 = rest.length := by simp
    rw [hlen1, hlen2, List.range'_succ, List.filterMap_cons]
    have hshift :
        List.filterMap (sandwichAt (p :: c :: n :: rest))
            (List.range' 2 rest.length) =
          List.filterMap (sandwichAt (c :: n :: rest))
            (List.range' 1 rest.length) := by
      rw [List.range'_eq_map_range, List.range'_eq_map_range,
        List.filterMap_map, List.filterMap_map]
      refine List.filterMap_congr fun k _ => ?_
      show sandwichAt (p :: c :: n :: rest) (2 + k) =
        sandwichAt (c :: n :: rest) (1 + k)
      have h2 : 2 + k = k + 2 := by omega
      have h1 : 1 + k = k + 1 := by omega
      rw [h2, h1, sandwichAt_cons]
    have hat1 : sandwichAt (p :: c :: n :: rest) 1 =
        if sandwichCond p c n then some (mkFinding p c n) else none := by
      simp [sandwichAt]
    rw [hat1]
    by_cases hcond : sandwichCond p c n
    · simp only [if_pos hcond, hshift, List.singleton_append]
    · simp only [if_neg hcond, hshift, List.nil_append]

/-- C1: detect_sandwich reports position i (1 <= i <= len-2) as a
sandwich victim iff prev.to_address == next.to_address, all three block
numbers agree, and prev.gasPrice > curr.gasPrice < next.gasPrice for
the triplet at positions (i-1, i, i+1); findings are emitted in scan
order, as the equality with the sliding-window scan records.  On the
batch [A(block1, gas5, to X), B(block1, gas2, to Y), C(block1, gas6,
to X)] exactly B is flagged, with front A and back C; changing
C.to_address to Z or C.blockNumber to 2 yields no finding. -/
theorem detect_sandwich_characterization :
    (∀ txs : List Transaction, detect_sandwich txs = sandwichScan txs) ∧
    (∀ (txs : List Transaction) (f : SandwichFinding),
      f ∈ detect_sandwich txs ↔
        ∃ i, 1 ≤ i ∧ i + 1 < txs.length ∧
          ∃ p c n, txs[i-1]? = some p ∧ txs[i]? = some c ∧
            txs[i+1]? = some n ∧ sandwichCond p c n ∧ f = mkFinding p c n) ∧
    detect_sandwich [exA, exB, exC] = [mkFinding exA exB exC] ∧
    (mkFinding exA exB exC).victim_hash = exB.tx_hash ∧
    (mkFinding exA exB exC).front_hash = exA.tx_hash ∧
    (mkFinding exA exB exC).back_hash = exC.tx_hash ∧
    detect_sandwich [exA, exB, exCtoZ] = [] ∧
    detect_sandwich [exA, exB, exCblk2] = [] := by
  refine ⟨detect_sandwich_eq_scan, ?_, by decide!, rfl, rfl, rfl,
    by decide!, by decide!⟩
  intro txs f
  rw [mem_detect_sandwich]
  constructor
  · rintro ⟨i, h1, hsome⟩
    obtain ⟨p, c, n, hp, hc, hn, hcond, rfl⟩ := sandwichAt_eq_some.mp hsome
    exact ⟨i, h1, (List.getElem?_eq_some.mp hn).1, p, c, n, hp, hc, hn,
      hcond, rfl⟩
  · rintro ⟨i, h1, _, p, c, n, hp, hc, hn, hcond, rfl⟩
    exact ⟨i, h1, sandwichAt_eq_some.mpr ⟨p, c, n, hp, hc, hn, hcond, rfl⟩⟩

/-- Witness for the sandwich characterisation at the concrete
determinism batch: the finding with victim B, front A and back C is in
the output. -/
theorem detect_sandwich_characterization_witness :
    mkFinding exA exB exC ∈ detect_sandwich [exA, exB, exC] :=
  (detect_sandwich_characterization.2.1 [exA, exB, exC]
      (mkFinding exA exB exC)).mpr
    ⟨1, le_refl 1, by decide!, exA, exB, exC, rfl, rfl, rfl, by decide!, rfl⟩

/-- C7: every sandwich finding arises from an interior index: the
victim sits at a position i with 1 <= i and i + 1 < length, so the
first position (i = 0) and the last position (i = length - 1) of a
batch are never reported as victims, whatever the field values. -/
theorem sandwich_victims_interior_only :
    ∀ (txs : List Transaction) (f : SandwichFinding),
      f ∈ detect_sandwich txs →
      ∃ i c, 1 ≤ i ∧ i + 1 < txs.length ∧ i ≠ 0 ∧ i ≠ txs.length - 1 ∧
        txs[i]? = some c ∧ f.victim_hash = c.tx_hash := by
  intro txs f hf
  obtain ⟨i, h1, hsome⟩ := mem_detect_sandwich.mp hf
  obtain ⟨p, c, n, hp, hc, hn, hcond, rfl⟩ := sandwichAt_eq_some.mp hsome
  have hlt : i + 1 < txs.length := (List.getElem?_eq_some.mp hn).1
  exact ⟨i, c, h1, hlt, by omega, by omega, hc, rfl⟩

/-- Witness for the interior-only theorem at the determinism batch. -/
theorem sandwich_victims_interior_only_witness :
    ∃ i c, 1 ≤ i ∧ i + 1 < ([exA, exB, exC] : List Transaction).length ∧
      i ≠ 0 ∧ i ≠ ([exA, exB, exC] : List Transaction).length - 1 ∧
      ([exA, exB, exC] : List Transaction)[i]? = some c ∧
      (mkFinding exA exB exC).victim_hash = c.tx_hash :=
  sandwich_victims_interior_only [exA, exB, exC] (mkFinding exA exB exC)
    (by decide!)

/-- C10: in a same-block window whose prev and next both lack a
to_address (two contract-creation transactions, None in the source),
the equality prev.to_address == next.to_address holds (None equals
None), so a strictly-lower-gas middle transaction is reported as a
sandwich victim and the emitted finding carries to_address none. -/
theorem sandwich_contract_creation_flagged :
    ∀ (txs : List Transaction) (i : Nat) (p c n : Transaction),
      txs[i-1]? = some p → txs[i]? = some c → txs[i+1]? = some n →
      1 ≤ i → p.to_address = none → n.to_address = none →
      p.blockNumber = c.blockNumber → c.blockNumber = n.blockNumber →
      p.gasPrice > c.gasPrice → c.gasPrice < n.gasPrice →
      mkFinding p c n ∈ detect_sandwich txs ∧
        (mkFinding p c n).to_address = none := by
  intro txs i p c n hp hc hn h1 hpto hnto hb1 hb2 hg1 hg2
  have hcond : sandwichCond p c n := ⟨hpto.trans hnto.symm, hg1, hg2, hb1, hb2⟩
  exact ⟨mem_detect_sandwich.mpr
      ⟨i, h1, sandwichAt_eq_some.mpr ⟨p, c, n, hp, hc, hn, hcond, rfl⟩⟩,
    hpto⟩

/-- Witness for the contract-creation window at a concrete triplet of
two creation transactions around a cheaper victim. -/
theorem sandwich_contract_creation_flagged_witness :
    mkFinding exP exQ exR ∈ detect_sandwich [exP, exQ, exR] ∧
      (mkFinding exP exQ exR).to_address = none :=
  sandwich_contract_creation_flagged [exP, exQ, exR] 1 exP exQ exR rfl rfl rfl
    (le_refl 1) rfl rfl rfl rfl (by decide!) (by decide!)

/-- C6: run_dashboard assembles no report exactly when the delivered
batch is empty; the early return at src/app.py line 149 fires before
the median or any detector is computed, and the none value is the
explicit no-data state of the model. -/
theorem run_dashboard_empty_halts :
    ∀ txs : List Transaction, run_dashboard txs = none ↔ txs = [] := by
  intro txs
  rcases txs with _ | ⟨t, ts⟩
  · simp [run_dashboard]
  · simp [run_dashboard]

/-- Witness for the empty-batch halt on the empty batch itself. -/
theorem run_dashboard_empty_halts_witness :
    run_dashboard [] = none :=
  (run_dashboard_empty_halts []).mpr rfl

/-- C9: the report assembles the detector outputs with no
deduplication or cross-filtering: a transaction that satisfies the
high-gas criterion of the report's threshold and is the victim of a
sandwich window appears both in the report's high-gas table and, as
the victim of its finding, in the report's sandwich table. -/
theorem report_no_cross_category_suppression :
    ∀ (txs : List Transaction) (r : Report), run_dashboard txs = some r →
    ∀ (i : Nat) (p c n : Transaction),
      txs[i-1]? = some p → txs[i]? = some c → txs[i+1]? = some n → 1 ≤ i →
      sandwichCond p c n → r.threshold ≤ c.gasPrice →
      c ∈ r.high_gas ∧ mkFinding p c n ∈ r.sandwiches := by
  intro txs r hrun i p c n hp hc hn h1 hcond hth
  rcases txs with _ | ⟨t, ts⟩
  · simp [run_dashboard] at hrun
  · simp only [run_dashboard, List.isEmpty_cons, Bool.false_eq_true,
      if_false, Option.some.injEq] at hrun
    subst hrun
    refine ⟨?_, ?_⟩
    · show c ∈ high_gas_txs (t :: ts) _
      unfold high_gas_txs sort_values_gas_desc
      rw [List.mem_reverse, List.mem_insertionSort, List.mem_reverse,
        List.mem_filter]
      exact ⟨List.getElem?_mem hc, decide_eq_true hth⟩
    · exact mem_detect_sandwich.mpr
        ⟨i, h1, sandwichAt_eq_some.mpr ⟨p, c, n, hp, hc, hn, hcond, rfl⟩⟩

/-- Witness for report completeness: in the report of the ten-row
batch, the victim exT9 (gas 50, threshold 3) is in the high-gas table
and its sandwich finding is in the sandwich table. -/
theorem report_no_cross_category_suppression_witness :
    exT9 ∈ exReport9.high_gas ∧
      mkFinding exT8 exT9 exT10 ∈ exReport9.sandwiches :=
  report_no_cross_category_suppression exBatch9 exReport9 (by decide!) 8
    exT8 exT9 exT10 (by decide!) (by decide!) (by decide!) (by decide!)
    (by decide!) (by decide!)

/-- The ingestion DataFrame carries exactly the given transactions. -/
theorem toFrame_map_fst (txs : List Transaction) :
    (toFrame txs).map Prod.fst = txs := by
  unfold toFrame
  rw [List.map_map]
  exact List.map_id txs

/-- The label column has one entry per batch row. -/
theorem dbscanLabels_length (txs : List Transaction) :
    (dbscanLabels txs).length = txs.length := by
  simp [dbscanLabels]

/-- Every row of the written DataFrame carries some label value. -/
theorem zipWith_label_snd :
    ∀ (ts : List Transaction) (ls : List Int) (q : Transaction × Option Int),
      q ∈ List.zipWith (fun t lb => (t, some lb)) ts ls →
      ∃ lb : Int, q.2 = some lb := by
  intro ts
  induction ts with
  | nil => intro ls q hq; simp at hq
  | cons t ts ih =>
    intro ls q hq
    cases ls with
    | nil => simp at hq
    | cons lb ls =>
      rw [List.zipWith_cons_cons, List.mem_cons] at hq
      rcases hq with rfl | hq
      · exact ⟨lb, rfl⟩
      · exact ih ls q hq

/-- Writing the label column neither reorders nor drops rows and
changes no transaction field: projecting the transactions back out of
the written DataFrame returns the original rows. -/
theorem map_fst_zipWith_label :
    ∀ (l : List (Transaction × Option Int)) (ls : List Int),
      l.length ≤ ls.length →
      (List.zipWith (fun q lb => (Prod.fst q, some lb)) l ls).map Prod.fst =
        l.map Prod.fst := by
  intro l
  induction l with
  | nil => intro ls h; simp
  | cons q l ih =>
    intro ls h
    cases ls with
    | nil => simp at h
    | cons lb ls =>
      rw [List.zipWith_cons_cons]
      simp only [List.map_cons]
      rw [ih ls (by simpa using h)]

/-- The label of batch row i, read off the shape of the label
column. -/
theorem dbscanLabels_getElem (txs : List Transaction) (i : Nat)
    (h : i < txs.length) :
    (dbscanLabels txs)[i]? =
      some (match coveringCores txs i with
        | [] => -1
        | j :: _ =>
            ((clusterReps txs).indexOf (componentRep txs j) : Int)) := by
  unfold dbscanLabels
  rw [List.getElem?_map, List.getElem?_range h]
  rfl

/-- C8: the cluster output of dbscan_cluster consists of exactly the
batch rows whose label is not the noise label -1 (the filter of
src/app.py line 127), every returned row carries a non-noise cluster
id (its label cell is some value other than -1, never a noise id and
never an empty cell), and a row is labelled -1 precisely when no core
point's eps-neighbourhood covers it, that is, when it belongs to no
dense region of at least min_samples mutually eps-reachable rows. -/
theorem dbscan_noise_excluded :
    ∀ txs : List Transaction,
      ((dbscan_cluster (toFrame txs)).2 =
        (List.zipWith (fun t lb => (t, some lb)) txs
          (dbscanLabels txs)).filter (fun q => q.2 ≠ some (-1))) ∧
      (∀ q, q ∈ (dbscan_cluster (toFrame txs)).2 →
        q.2 ≠ some (-1) ∧ q.2 ≠ none) ∧
      (∀ i, i < txs.length →
        ((dbscanLabels txs)[i]? = some (-1) ↔
          ∀ j, j < txs.length →
            ¬(isCorePt txs j = true ∧ withinEps txs j i = true))) := by
  intro txs
  have hbase : (dbscan_cluster (toFrame txs)).2 =
      (List.zipWith (fun t lb => (t, some lb)) txs
        (dbscanLabels txs)).filter (fun q => q.2 ≠ some (-1)) := by
    simp only [dbscan_cluster]
    rw [toFrame_map_fst]
    simp only [toFrame, List.zipWith_map_left]
  refine ⟨hbase, ?_, ?_⟩
  · intro q hq
    rw [hbase, List.mem_filter] at hq
    obtain ⟨hmem, hpred⟩ := hq
    obtain ⟨lb, hlb⟩ := zipWith_label_snd txs (dbscanLabels txs) q hmem
    refine ⟨of_decide_eq_true hpred, ?_⟩
    rw [hlb]
    simp
  · intro i hi
    rw [dbscanLabels_getElem txs i hi, Option.some.injEq]
    cases hcc : coveringCores txs i with
    | nil =>
      have hnone : ∀ a ∈ List.range txs.length,
          ¬(isCorePt txs a && withinEps txs a i) = true := by
        rw [← List.filter_eq_nil_iff]
        exact hcc
      simp only [hcc]
      constructor
      · intro _ j hj hcw
        rcases hcw with ⟨hcj, hwj⟩
        exact hnone j (List.mem_range.mpr hj) (by simp [hcj, hwj])
      · intro _
        trivial
    | cons j rest =>
      simp only [hcc]
      constructor
      · intro habs
        exfalso
        have hge : (0:ℤ) ≤
            ((clusterReps txs).indexOf (componentRep txs j) : ℤ) :=
          Int.natCast_nonneg _
        omega
      · intro hall
        exfalso
        have hmemj : j ∈ coveringCores txs i := by
          rw [hcc]
          exact List.mem_cons_self _ _
        unfold coveringCores at hmemj
        rw [List.mem_filter, Bool.and_eq_true] at hmemj
        exact hall j (List.mem_range.mp hmemj.1) ⟨hmemj.2.1, hmemj.2.2⟩

/-- Witness for the noise-exclusion theorem: in the cluster output of
the three identical-feature rows, the first returned row carries the
non-noise id 0. -/
theorem dbscan_noise_excluded_witness :
    ((exU1, some (0:Int)) : Transaction × Option Int).2 ≠ some (-1) ∧
      ((exU1, some (0:Int)) : Transaction × Option Int).2 ≠ none :=
  (dbscan_noise_excluded exTrip).2.1 (exU1, some 0) (by decide!)

/-- C4 counterexample: dbscan_cluster does not leave its input batch
unchanged.  On a concrete two-row DataFrame without a cluster column,
the assignment txs[cluster] = lbls of src/app.py line 126 leaves the
input carrying a written cluster column (here the noise label -1 in
both rows), so the post-state differs from the input. -/
theorem dbscan_cluster_mutates_input :
    (dbscan_cluster exPairFrame).1 ≠ exPairFrame := by decide!

/-- C4 amended: detect_sandwich, detect_anomalies (for every label
vector the library step may return) and the high-gas computation only
read the DataFrame, so their state-passing forms return the input
unchanged, and every embedded detector is a pure function of the
batch; dbscan_cluster, however, writes the cluster column into its
input — it modifies no existing field and neither reorders nor drops
rows (projecting the transactions back out returns the original
batch), but the input gains the written column. -/
theorem detectors_frame_discipline :
    (∀ f : Frame, (detect_sandwich_frame f).1 = f) ∧
    (∀ (f : Frame) (labels : List Int),
      (detect_anomalies_frame f labels).1 = f) ∧
    (∀ (f : Frame) (th : ℚ), (high_gas_frame f th).1 = f) ∧
    (∀ f : Frame, (dbscan_cluster f).1.map Prod.fst = f.map Prod.fst) := by
  refine ⟨fun f => rfl, fun f labels => rfl, fun f th => rfl, fun f => ?_⟩
  show (List.zipWith (fun q lb => (Prod.fst q, some lb)) f
      (dbscanLabels (f.map Prod.fst))).map Prod.fst = f.map Prod.fst
  apply map_fst_zipWith_label
  rw [dbscanLabels_length, List.length_map]
